import Mathlib

/-!
Shallow embedding of the OVH inventory-availability dashboard sources:
`src/pages/OVHAvailabilityPage.tsx`, `src/pages/ServerControlPage.tsx` and
`src/utils/apiClient.ts`.  Pure computations (filters, statistics, pagination,
message building, request construction) are translated into executable Lean
functions; the React state updates are modelled by explicit state passing, and
the HTTP layer by returning the list of requests that the code would issue
together with the toast messages it would show.  JavaScript string truthiness
is modelled as "non-empty string"; `Record<string, string>` objects are
modelled as association lists of key/value pairs.
-/

namespace OVH

/-- Kind of a toast notification (`toast.info` / `toast.success` / `toast.error`
from the `sonner` library used throughout the pages). -/
inductive ToastKind where
  | info : ToastKind
  | success : ToastKind
  | error : ToastKind
deriving DecidableEq, Repr

/-- A toast shown to the operator: its kind and its message text. -/
structure Toast where
  kind : ToastKind
  message : String
deriving DecidableEq, Repr

/-- Model of JavaScript `String.prototype.toLowerCase` (ASCII letters are
lowered; the datacenter codes handled by the pages are all ASCII). -/
def jsToLower (s : String) : String := String.mk (s.data.map Char.toLower)

/-- Model of JavaScript `String.prototype.includes`. -/
def strIncludes (s pat : String) : Bool := decide (List.IsInfix pat.data s.data)

/-! ## OVHAvailabilityPage.tsx: data model -/

/-- `DatacenterInfo` from `OVHAvailabilityPage.tsx`: one facility and its
availability status string for a given SKU. -/
structure DatacenterInfo where
  datacenter : String
  availability : String
deriving DecidableEq, Repr

/-- `AvailabilityItem` from `OVHAvailabilityPage.tsx`: one catalog record with
its per-datacenter availability. -/
structure AvailabilityItem where
  fqn : String
  memory : String
  planCode : String
  server : String
  storage : String
  systemStorage : Option String
  datacenters : List DatacenterInfo
deriving DecidableEq, Repr

/-- The "is-available" classification used (inlined three times) by
`filteredData` and `stats` in `OVHAvailabilityPage.tsx`:
`dc.availability !== 'unavailable' && dc.availability !== 'unknown'`. -/
def isAvailableStatus (availability : String) : Bool :=
  availability != "unavailable" && availability != "unknown"

/-- The "is-available" classification used by `checkAvailability` in
`ServerControlPage.tsx` (lines 6477-6479):
`status && status !== 'unavailable' && status !== 'unknown'`.
JavaScript truthiness of a string means the string is non-empty. -/
def isAvailableStatusChecked (status : String) : Bool :=
  status != "" && (status != "unavailable" && status != "unknown")

/-- Classification following the spec words of §4.2: every status other than
`unavailable` and `unknown` counts as available.  Kept separate from the two
source-derived classifications so they can be compared. -/
def isAvailableSpec (status : String) : Bool :=
  status != "unavailable" && status != "unknown"

/-- The `filterAvailability` branch of `filteredData` in
`OVHAvailabilityPage.tsx` (lines 175-192). -/
def filterByAvailability (filterAvailability : String) (l : List AvailabilityItem) :
    List AvailabilityItem :=
  if filterAvailability = "all" then l
  else l.filter (fun item =>
    if filterAvailability = "available" then
      item.datacenters.any (fun dc => isAvailableStatus dc.availability)
    else if filterAvailability = "unavailable" then
      item.datacenters.all (fun dc =>
        dc.availability == "unavailable" || dc.availability == "unknown")
    else if filterAvailability = "1h" then
      item.datacenters.any (fun dc =>
        dc.availability == "1H-low" || dc.availability == "1H-high")
    else true)

/-- `stats.available` from `OVHAvailabilityPage.tsx` (lines 269-273): number of
items with some datacenter whose status is neither `unavailable` nor
`unknown`.  The source computes it over `filteredData`; here the list is a
parameter. -/
def statsAvailable (filteredData : List AvailabilityItem) : Nat :=
  (filteredData.filter (fun item =>
    item.datacenters.any (fun dc => isAvailableStatus dc.availability))).length

/-- `stats.oneHour` from `OVHAvailabilityPage.tsx` (lines 274-278): number of
items with some datacenter whose status is `1H-low` or `1H-high`. -/
def statsOneHour (filteredData : List AvailabilityItem) : Nat :=
  (filteredData.filter (fun item =>
    item.datacenters.any (fun dc =>
      dc.availability == "1H-low" || dc.availability == "1H-high"))).length

/-! ## OVHAvailabilityPage.tsx: fetchAvailabilities -/

/-- The axios error object as far as `fetchAvailabilities` inspects it:
`error.code` and `error.message` (either may be absent). -/
structure FetchError where
  code : Option String
  message : Option String
deriving DecidableEq, Repr

/-- `error.message?.includes('timeout')` with JavaScript optional chaining:
an absent message is falsy. -/
def msgMentionsTimeout : Option String → Bool
  | some m => strIncludes m "timeout"
  | none => false

/-- The error-message selection in the `catch` block of `fetchAvailabilities`
(lines 106-111 of `OVHAvailabilityPage.tsx`). -/
def fetchErrorMessage (e : FetchError) : String :=
  if e.code == some "ECONNABORTED" || msgMentionsTimeout e.message then
    "请求超时，请重试"
  else
    match e.message with
    | some m => if m = "" then "获取数据失败" else "获取数据失败: " ++ m
    | none => "获取数据失败"

/-- The component state touched by `fetchAvailabilities`: the
`availabilities` list and the `isLoading` flag. -/
structure PageState where
  availabilities : List AvailabilityItem
  isLoading : Bool
deriving DecidableEq, Repr

/-- The body of the `try`/`catch`/`finally` in `fetchAvailabilities`
(lines 88-116 of `OVHAvailabilityPage.tsx`), given the outcome of the single
`axios.get` call: on success the response data replaces `availabilities`
wholesale and a success toast is shown; on error the state is untouched and an
error toast is shown; `isLoading` is reset in the `finally` block.  The
leading `toast.info` of line 91 is included. -/
def fetchAvailabilitiesRun (st : PageState)
    (result : Except FetchError (List AvailabilityItem)) : PageState × List Toast :=
  match result with
  | Except.ok data =>
      ({ availabilities := data, isLoading := false },
       [⟨ToastKind.info, "正在从 OVH 公开 API 获取数据..."⟩,
        ⟨ToastKind.success, "成功获取 " ++ toString data.length ++ " 条可用性记录"⟩])
  | Except.error e =>
      ({ st with isLoading := false },
       [⟨ToastKind.info, "正在从 OVH 公开 API 获取数据..."⟩,
        ⟨ToastKind.error, fetchErrorMessage e⟩])

/-- `fetchAvailabilities` of `OVHAvailabilityPage.tsx` (lines 85-117),
including the `if (!apiBaseUrl) return;` guard: with an empty base URL nothing
happens (no request is made, so no `result` is consumed). -/
def fetchAvailabilities (apiBaseUrl : String) (st : PageState)
    (result : Except FetchError (List AvailabilityItem)) : PageState × List Toast :=
  if apiBaseUrl = "" then (st, [])
  else fetchAvailabilitiesRun st result

/-! ## OVHAvailabilityPage.tsx: pagination -/

/-- `paginatedData` of `OVHAvailabilityPage.tsx` (lines 245-249):
`filteredData.slice((currentPage-1)*itemsPerPage, currentPage*itemsPerPage)`. -/
def paginatedData (filteredData : List AvailabilityItem)
    (itemsPerPage currentPage : Nat) : List AvailabilityItem :=
  (filteredData.drop ((currentPage - 1) * itemsPerPage)).take itemsPerPage

/-- `totalPages = Math.ceil(filteredData.length / itemsPerPage)` (line 251);
for a positive page size this is `(length + itemsPerPage - 1) / itemsPerPage`
in integer arithmetic. -/
def totalPages (filteredData : List AvailabilityItem) (itemsPerPage : Nat) : Nat :=
  (filteredData.length + itemsPerPage - 1) / itemsPerPage

/-! ## ServerControlPage.tsx: datacenter code conversion and availability -/

/-- `convertDisplayDcToApiDc` of `ServerControlPage.tsx` (lines 6584-6590):
`dcMap[displayDc.toLowerCase()] || displayDc.toLowerCase()` with the map
`{ mum: 'ynm' }`. -/
def convertDisplayDcToApiDc (displayDc : String) : String :=
  if jsToLower displayDc = "mum" then "ynm" else jsToLower displayDc

/-- The response normalization inside `checkAvailability`
(lines 6461-6466 of `ServerControlPage.tsx`): the API datacenter code `ynm`
is mapped back to the display code `mum`; every other code is unchanged. -/
def normalizeApiDc (dc : String) : String :=
  if dc = "ynm" then "mum" else dc

/-- `normalizedData` of `checkAvailability`: the response object
(`Record<string, string>`, modelled as an association list) with every key
passed through `normalizeApiDc`. -/
def normalizeAvailabilityData (data : List (String × String)) :
    List (String × String) :=
  data.map (fun p => (normalizeApiDc p.1, p.2))

/-- `availableDatacenters` of `checkAvailability` (lines 6477-6479): the keys
of `normalizedData` whose status is truthy and neither `unavailable` nor
`unknown`. -/
def availableDatacenters (normalizedData : List (String × String)) : List String :=
  (normalizedData.filter (fun p => isAvailableStatusChecked p.2)).map Prod.fst

/-- The single GET request issued by `checkAvailability`: its path and its
optional `options` query parameter. -/
structure AvailabilityRequest where
  path : String
  optionsParam : Option String
deriving DecidableEq, Repr

/-- The requests issued by `checkAvailability` of `ServerControlPage.tsx`
(lines 6429-6456): nothing when unauthenticated; otherwise exactly one GET to
`/availability/{planCode}`, with `params.options = selectedOpts.join(',')`
exactly when the operator selected at least one option.  `selectedOptions` is
the per-plan selected-option map (an absent entry is the empty list). -/
def checkAvailabilityRequests (isAuthenticated : Bool)
    (selectedOptions : String → List String) (planCode : String) :
    List AvailabilityRequest :=
  if isAuthenticated = false then []
  else
    let selectedOpts := selectedOptions planCode
    [{ path := "/availability/" ++ planCode,
       optionsParam :=
         if selectedOpts.length > 0 then
           some (String.intercalate "," selectedOpts)
         else none }]

/-! ## ServerControlPage.tsx: addToQueue -/

/-- A configurable option of a server plan (label and value), as used by
`defaultOptions` and `availableOptions` in `ServerControlPage.tsx`. -/
structure ServerOption where
  label : String
  value : String
deriving DecidableEq, Repr

/-- The fields of `ServerPlan` that `addToQueue` reads. -/
structure ServerPlan where
  planCode : String
  defaultOptions : List ServerOption
  availableOptions : List ServerOption
deriving DecidableEq, Repr

/-- One `POST /queue` request body issued by `addToQueue`
(lines 6832-6838 of `ServerControlPage.tsx`). -/
structure QueueRequest where
  planCode : String
  datacenter : String
  options : List String
deriving DecidableEq, Repr

/-- `userSelectedOptions` of `addToQueue` (lines 6791-6793): the operator's
selected options for the plan when non-empty, otherwise the plan's default
option values. -/
def userSelectedOptionsFor (selectedOptions : String → List String)
    (server : ServerPlan) : List String :=
  let sel := selectedOptions server.planCode
  if sel.length > 0 then sel else server.defaultOptions.map ServerOption.value

/-- `addToQueue` of `ServerControlPage.tsx` (lines 6778-6858): returns the
list of `POST /queue` requests it issues (one per selected datacenter, with
the display code converted to the provider API code) and the toast it shows.
`allOk` is whether `Promise.all` of the requests resolved; on rejection the
catch block shows an error toast (the requests were still issued).  The
optional configuration-detail suffix appended to the success message
(lines 6846-6851) is not modelled; only the base success message is. -/
def addToQueue (isAuthenticated : Bool) (selectedOptions : String → List String)
    (server : ServerPlan) (datacenters : List String) (allOk : Bool) :
    List QueueRequest × Toast :=
  if isAuthenticated = false then
    ([], ⟨ToastKind.error, "请先配置 API 设置"⟩)
  else if datacenters.length = 0 then
    ([], ⟨ToastKind.error, "请至少选择一个数据中心"⟩)
  else
    let userSelectedOptions := userSelectedOptionsFor selectedOptions server
    let reqs := datacenters.map (fun datacenter =>
      { planCode := server.planCode,
        datacenter := convertDisplayDcToApiDc datacenter,
        options := userSelectedOptions : QueueRequest })
    if allOk then
      (reqs, ⟨ToastKind.success,
        "已将 " ++ server.planCode ++ " 添加到 " ++ toString datacenters.length
          ++ " 个数据中心的抢购队列"⟩)
    else
      (reqs, ⟨ToastKind.error, "添加到抢购队列失败"⟩)

/-! ## ServerControlPage.tsx: batch-add-all subscriptions -/

/-- Modelled from the spec: the response of
`POST /monitor/subscriptions/batch-add-all` — the backend itself is not under
`src/`; per the spec, batch operations "return structured
\x7badded, skipped, errors\x7d summaries rather than failing atomically".  The
handler `confirmBatchAddAllServersToMonitor` reads exactly the fields
`added`, `skipped` and `errors` (which it also guards for absence). -/
structure BatchAddResult where
  added : Nat
  skipped : Nat
  errors : Option (List String)
deriving DecidableEq, Repr

/-- The pieces that `confirmBatchAddAllServersToMonitor`
(lines 6938-6946 of `ServerControlPage.tsx`) concatenates into its success
message, in concatenation order.  `batchMsgPartText` gives each piece's text. -/
inductive BatchMsgPart where
  | header : BatchMsgPart
  | addedLine : Nat → BatchMsgPart
  | skippedLine : Nat → BatchMsgPart
  | errorsLine : Nat → BatchMsgPart
  | footer : BatchMsgPart
deriving DecidableEq, Repr

/-- The success message of `confirmBatchAddAllServersToMonitor` as the ordered
list of appended pieces: header and added-count always; skipped-count exactly
when `result.skipped > 0`; error-count exactly when `result.errors` is present
and non-empty; footer always. -/
def batchSuccessMessage (r : BatchAddResult) : List BatchMsgPart :=
  [BatchMsgPart.header, BatchMsgPart.addedLine r.added]
    ++ (if 0 < r.skipped then [BatchMsgPart.skippedLine r.skipped] else [])
    ++ (match r.errors with
        | some es => if 0 < es.length then [BatchMsgPart.errorsLine es.length] else []
        | none => [])
    ++ [BatchMsgPart.footer]

/-- The text of each message piece, exactly as concatenated by the source. -/
def batchMsgPartText : BatchMsgPart → String
  | BatchMsgPart.header => "✅ 批量添加完成！\n"
  | BatchMsgPart.addedLine n => "• 已添加: " ++ toString n ++ " 个服务器\n"
  | BatchMsgPart.skippedLine n => "• 跳过: " ++ toString n ++ " 个已订阅服务器\n"
  | BatchMsgPart.errorsLine n => "• 失败: " ++ toString n ++ " 个\n"
  | BatchMsgPart.footer => "\n所有服务器将监控全机房，系统会自动发送可用性通知。"

/-- The full success-message string shown by the handler. -/
def batchSuccessMessageText (r : BatchAddResult) : String :=
  String.join ((batchSuccessMessage r).map batchMsgPartText)

/-! ## apiClient.ts -/

/-- `getApiSecretKey` of `apiClient.ts` (lines 16-18):
`localStorage.getItem('api_secret_key') || ''`.  The `store` argument models
the value of the `api_secret_key` localStorage entry (`none` when absent). -/
def getApiSecretKey (store : Option String) : String :=
  store.getD ""

/-- The headers of a request through the shared client, as far as the
interceptor touches them: the `Content-Type` default plus the two headers the
interceptor may set. -/
structure RequestHeaders where
  contentType : Option String
  apiKey : Option String
  requestTime : Option String
deriving DecidableEq, Repr

/-- The headers a request starts with: the axios instance is created with a
`Content-Type: application/json` default (lines 37-43 of `apiClient.ts`) and
neither `X-API-Key` nor `X-Request-Time`. -/
def initialHeaders : RequestHeaders :=
  { contentType := some "application/json", apiKey := none, requestTime := none }

/-- The request interceptor of `apiClient.ts` (lines 48-60): sets `X-API-Key`
to the stored secret key when that key is truthy (non-empty), and always sets
`X-Request-Time` to `Date.now().toString()`. -/
def applyRequestInterceptor (store : Option String) (now : Nat)
    (config : RequestHeaders) : RequestHeaders :=
  let apiKey := getApiSecretKey store
  let config1 := if apiKey ≠ "" then { config with apiKey := some apiKey } else config
  { config1 with requestTime := some (toString now) }

/-- The headers actually sent on a request through the shared client: the
interceptor applied to the instance's initial headers. -/
def sendRequestHeaders (store : Option String) (now : Nat) : RequestHeaders :=
  applyRequestInterceptor store now initialHeaders

/-! ## Theorems -/

/-- Claim C1, counterexample: the empty status string is neither
`unavailable` nor `unknown`, so the claim classifies it as available, yet the
per-plan availability check of `checkAvailability` classifies it as
unavailable (its guard also requires the status to be truthy). -/
theorem isAvailable_empty_status_counterexample :
    ("" : String) ≠ "unavailable" ∧ ("" : String) ≠ "unknown"
    ∧ isAvailableSpec "" = true ∧ isAvailableStatusChecked "" = false := by
  decide

/-- Claim C1 (amended): in the availability filter and statistics, a status is
classified available iff it is neither `unavailable` nor `unknown`; in the
per-plan availability check it is classified available iff it is additionally
non-empty.  All other recognized statuses (`1H-low`, `1H-high`, `72H`,
`480H`) classify as available under both. -/
theorem isAvailable_classification_amended (s : String) :
    (isAvailableStatus s = true ↔ (s ≠ "unavailable" ∧ s ≠ "unknown"))
    ∧ (isAvailableStatusChecked s = true ↔
        (s ≠ "" ∧ s ≠ "unavailable" ∧ s ≠ "unknown"))
    ∧ (isAvailableStatus "1H-low" = true ∧ isAvailableStatus "1H-high" = true
        ∧ isAvailableStatus "72H" = true ∧ isAvailableStatus "480H" = true
        ∧ isAvailableStatusChecked "1H-low" = true
        ∧ isAvailableStatusChecked "1H-high" = true
        ∧ isAvailableStatusChecked "72H" = true
        ∧ isAvailableStatusChecked "480H" = true) := by
  refine ⟨?_, ?_, by decide⟩ <;>
    simp [isAvailableStatus, isAvailableStatusChecked]

/-- Claim C1 (witness): the amended classification at the concrete status
`72H`. -/
theorem isAvailable_classification_amended_witness :
    (("72H" : String) ≠ "" ∧ ("72H" : String) ≠ "unavailable"
      ∧ ("72H" : String) ≠ "unknown")
    ∧ isAvailableStatusChecked "72H" = true :=
  ⟨by decide, ((isAvailable_classification_amended "72H").2.1).mpr (by decide)⟩

/-- Claim C2: when the snapshot fetch fails, the held availabilities list is
left unchanged, an error toast is reported, and no success toast is shown. -/
theorem fetchAvailabilities_error_preserves_state (apiBaseUrl : String)
    (st : PageState) (e : FetchError) (h : apiBaseUrl ≠ "") :
    ((fetchAvailabilities apiBaseUrl st (Except.error e)).1.availabilities
      = st.availabilities)
    ∧ (∃ t ∈ (fetchAvailabilities apiBaseUrl st (Except.error e)).2,
        t.kind = ToastKind.error)
    ∧ (∀ t ∈ (fetchAvailabilities apiBaseUrl st (Except.error e)).2,
        t.kind ≠ ToastKind.success) := by
  refine ⟨?_, ?_, ?_⟩ <;>
    simp [fetchAvailabilities, fetchAvailabilitiesRun, h]

/-- Claim C2 (witness): a failed fetch at a concrete state leaves the
availabilities list untouched. -/
theorem fetchAvailabilities_error_preserves_state_witness :
    ("https://eu.api.ovh.com" : String) ≠ "" ∧
      ((fetchAvailabilities "https://eu.api.ovh.com" ⟨[], true⟩
        (Except.error ⟨some "ECONNABORTED", some "timeout of 30000ms exceeded"⟩)).1.availabilities
        = ([] : List AvailabilityItem)) :=
  ⟨by decide, (fetchAvailabilities_error_preserves_state "https://eu.api.ovh.com"
    ⟨[], true⟩ ⟨some "ECONNABORTED", some "timeout of 30000ms exceeded"⟩ (by decide)).1⟩

/-- Claim C3: on a successful snapshot fetch, the held availabilities list
equals exactly the response data — a whole-list swap, with no record of the
previous snapshot surviving. -/
theorem fetchAvailabilities_success_replaces_state (apiBaseUrl : String)
    (st : PageState) (data : List AvailabilityItem) (h : apiBaseUrl ≠ "") :
    (fetchAvailabilities apiBaseUrl st (Except.ok data)).1.availabilities = data := by
  simp [fetchAvailabilities, fetchAvailabilitiesRun, h]

/-- Claim C3 (witness): a successful fetch returning the empty snapshot wipes
out a previously held record. -/
theorem fetchAvailabilities_success_replaces_state_witness :
    ("https://eu.api.ovh.com" : String) ≠ "" ∧
      (fetchAvailabilities "https://eu.api.ovh.com"
        ⟨[⟨"f", "32g", "old-plan", "srv", "1TB", none, []⟩], true⟩
        (Except.ok [])).1.availabilities = [] :=
  ⟨by decide, fetchAvailabilities_success_replaces_state "https://eu.api.ovh.com"
    ⟨[⟨"f", "32g", "old-plan", "srv", "1TB", none, []⟩], true⟩ [] (by decide)⟩

/-- Claim C5: every item counted by the "within 1 hour" statistic is also
counted by the "available" statistic, so `stats.oneHour ≤ stats.available`
for every list of availability items. -/
theorem stats_oneHour_le_available (filteredData : List AvailabilityItem) :
    statsOneHour filteredData ≤ statsAvailable filteredData := by
  unfold statsOneHour statsAvailable
  rw [← List.countP_eq_length_filter, ← List.countP_eq_length_filter]
  refine List.countP_mono_left ?_
  intro item _ h
  rw [List.any_eq_true] at h ⊢
  obtain ⟨dc, hdc, hst⟩ := h
  refine ⟨dc, hdc, ?_⟩
  have hst' : dc.availability = "1H-low" ∨ dc.availability = "1H-high" := by
    simpa using hst
  rcases hst' with h1 | h1 <;> rw [h1] <;> decide

/-- Claim C9, counterexample: the round-trip fails at the display code `ynm`:
`convertDisplayDcToApiDc "ynm" = "ynm"`, and normalizing it yields `"mum"`,
not `lowercase "ynm"`. -/
theorem dc_roundtrip_counterexample :
    normalizeApiDc (convertDisplayDcToApiDc "ynm") = "mum"
    ∧ jsToLower "ynm" = "ynm"
    ∧ normalizeApiDc (convertDisplayDcToApiDc "ynm") ≠ jsToLower "ynm" := by
  decide

/-- Claim C9 (amended): `convertDisplayDcToApiDc` maps any-case `mum` to
`ynm` and everything else to its lowercase form; `normalizeApiDc` maps `ynm`
back to `mum` and leaves every other code unchanged; and the round-trip
`normalizeApiDc (convertDisplayDcToApiDc d) = lowercase d` holds for every
display code `d` whose lowercase form is not `ynm`. -/
theorem dc_conversion_roundtrip_amended (d : String) :
    (jsToLower d = "mum" → convertDisplayDcToApiDc d = "ynm")
    ∧ (jsToLower d ≠ "mum" → convertDisplayDcToApiDc d = jsToLower d)
    ∧ normalizeApiDc "ynm" = "mum"
    ∧ (∀ dc : String, dc ≠ "ynm" → normalizeApiDc dc = dc)
    ∧ (jsToLower d ≠ "ynm" →
        normalizeApiDc (convertDisplayDcToApiDc d) = jsToLower d) := by
  refine ⟨?_, ?_, by decide, ?_, ?_⟩
  · intro h; simp [convertDisplayDcToApiDc, h]
  · intro h; simp [convertDisplayDcToApiDc, h]
  · intro dc h; simp [normalizeApiDc, h]
  · intro h
    by_cases hm : jsToLower d = "mum"
    · rw [hm]; simp [convertDisplayDcToApiDc, hm, normalizeApiDc]
    · simp [convertDisplayDcToApiDc, hm, normalizeApiDc, h]

/-- Claim C9 (witness): the amended round-trip at the concrete display code
`MUM`. -/
theorem dc_conversion_roundtrip_amended_witness :
    jsToLower "MUM" ≠ "ynm"
    ∧ normalizeApiDc (convertDisplayDcToApiDc "MUM") = jsToLower "MUM" :=
  ⟨by decide, (dc_conversion_roundtrip_amended "MUM").2.2.2.2 (by decide)⟩

/-- Claim C4: with a non-empty list of `k` selected facilities and an
authenticated operator, `addToQueue` issues exactly `k` POST `/queue`
requests — the `i`-th request for the `i`-th facility, carrying the plan
code, that facility's code converted to the provider API code, and the
operator's selected option list (or the plan's default option values when
none are selected); when unauthenticated or with zero facilities, it issues
no request and shows an error toast instead. -/
theorem addToQueue_requests_spec (isAuthenticated : Bool)
    (selectedOptions : String → List String) (server : ServerPlan)
    (datacenters : List String) (allOk : Bool) :
    (isAuthenticated = false →
      (addToQueue isAuthenticated selectedOptions server datacenters allOk).1 = []
      ∧ (addToQueue isAuthenticated selectedOptions server datacenters allOk).2.kind
          = ToastKind.error)
    ∧ (datacenters = [] →
      (addToQueue isAuthenticated selectedOptions server datacenters allOk).1 = []
      ∧ (addToQueue isAuthenticated selectedOptions server datacenters allOk).2.kind
          = ToastKind.error)
    ∧ (isAuthenticated = true → datacenters ≠ [] →
      ((addToQueue isAuthenticated selectedOptions server datacenters allOk).1.length
          = datacenters.length
        ∧ ∀ i : Nat,
            ((addToQueue isAuthenticated selectedOptions server datacenters allOk).1)[i]?
              = (datacenters[i]?).map (fun dc =>
                  ⟨server.planCode, convertDisplayDcToApiDc dc,
                    userSelectedOptionsFor selectedOptions server⟩))) := by
  refine ⟨?_, ?_, ?_⟩
  · intro h; subst h; simp [addToQueue]
  · intro h; subst h
    cases isAuthenticated <;> simp [addToQueue]
  · intro hauth hdc
    subst hauth
    have h0 : ¬ datacenters.length = 0 := by
      simpa [List.length_eq_zero] using hdc
    cases allOk <;>
      simp [addToQueue, h0, List.getElem?_map]

/-- Claim C4 (witness): an authenticated enqueue on two facilities issues
exactly two requests. -/
theorem addToQueue_requests_spec_witness :
    ((true = true) ∧ (["gra", "MUM"] : List String) ≠ []) ∧
      ((addToQueue true (fun _ => ["opt1"]) ⟨"plan-a", [], []⟩
        ["gra", "MUM"] true).1.length = (["gra", "MUM"] : List String).length) :=
  ⟨⟨rfl, by decide⟩,
    ((addToQueue_requests_spec true (fun _ => ["opt1"]) ⟨"plan-a", [], []⟩
      ["gra", "MUM"] true).2.2 rfl (by decide)).1⟩

/-- Claim C6: the batch-add-all handler's success message always reports the
added count, reports the skipped count exactly when `skipped > 0`, and
reports the error count exactly when the errors list is present and
non-empty; the reported counts are the summary's own counts. -/
theorem batchSuccessMessage_reports (r : BatchAddResult) :
    BatchMsgPart.addedLine r.added ∈ batchSuccessMessage r
    ∧ (BatchMsgPart.skippedLine r.skipped ∈ batchSuccessMessage r ↔ 0 < r.skipped)
    ∧ (∀ n, BatchMsgPart.skippedLine n ∈ batchSuccessMessage r → n = r.skipped)
    ∧ (BatchMsgPart.errorsLine (r.errors.getD []).length ∈ batchSuccessMessage r
        ↔ 0 < (r.errors.getD []).length)
    ∧ (∀ n, BatchMsgPart.errorsLine n ∈ batchSuccessMessage r
        → n = (r.errors.getD []).length) := by
  obtain ⟨a, s, errs⟩ := r
  cases errs with
  | none =>
    by_cases hs : 0 < s <;>
      simp [batchSuccessMessage, hs]
  | some es =>
    by_cases hs : 0 < s <;> by_cases he : 0 < es.length <;>
      simp [batchSuccessMessage, hs, he]

/-- Claim C6 (witness): a summary with 3 added, 2 skipped and 1 error reports
all three counts. -/
theorem batchSuccessMessage_reports_witness :
    BatchMsgPart.skippedLine 2 ∈ batchSuccessMessage ⟨3, 2, some ["boom"]⟩
    ∧ BatchMsgPart.addedLine 3 ∈ batchSuccessMessage ⟨3, 2, some ["boom"]⟩
    ∧ BatchMsgPart.errorsLine 1 ∈ batchSuccessMessage ⟨3, 2, some ["boom"]⟩ :=
  ⟨((batchSuccessMessage_reports ⟨3, 2, some ["boom"]⟩).2.1).mpr (by decide),
   (batchSuccessMessage_reports ⟨3, 2, some ["boom"]⟩).1,
   ((batchSuccessMessage_reports ⟨3, 2, some ["boom"]⟩).2.2.2.1).mpr (by decide)⟩

/-- Claim C7: the per-SKU availability check issues no request when
unauthenticated; otherwise it issues exactly one GET request to
`/availability/{planCode}`, whose `options` parameter is the selected option
codes joined by commas exactly when at least one is selected, and is absent
otherwise. -/
theorem checkAvailability_request_spec (isAuthenticated : Bool)
    (selectedOptions : String → List String) (planCode : String) :
    (isAuthenticated = false →
      checkAvailabilityRequests isAuthenticated selectedOptions planCode = [])
    ∧ (isAuthenticated = true →
      (checkAvailabilityRequests isAuthenticated selectedOptions planCode).length = 1
      ∧ ∀ r ∈ checkAvailabilityRequests isAuthenticated selectedOptions planCode,
          r.path = "/availability/" ++ planCode
          ∧ (selectedOptions planCode ≠ [] →
              r.optionsParam = some (String.intercalate "," (selectedOptions planCode)))
          ∧ (selectedOptions planCode = [] → r.optionsParam = none)) := by
  refine ⟨?_, ?_⟩
  · intro h; subst h; simp [checkAvailabilityRequests]
  · intro h; subst h
    by_cases hsel : selectedOptions planCode = []
    · simp [checkAvailabilityRequests, hsel]
    · have hl : 0 < (selectedOptions planCode).length := List.length_pos.mpr hsel
      simp [checkAvailabilityRequests, hsel, hl]

/-- Claim C7 (witness): an authenticated check with two selected options
issues exactly one request. -/
theorem checkAvailability_request_spec_witness :
    (true = true) ∧
      (checkAvailabilityRequests true (fun _ => ["ram-64g", "ssd-2x500"])
        "plan-x").length = 1 :=
  ⟨rfl, ((checkAvailability_request_spec true (fun _ => ["ram-64g", "ssd-2x500"])
    "plan-x").2 rfl).1⟩

/-- Claim C8: every request through the shared API client carries an
`X-API-Key` header equal to the stored secret whenever it is non-empty, omits
the header when the stored value is empty or absent, and always carries an
`X-Request-Time` header. -/
theorem apiClient_headers_spec (store : Option String) (now : Nat) :
    (sendRequestHeaders store now).requestTime = some (toString now)
    ∧ (getApiSecretKey store ≠ "" →
        (sendRequestHeaders store now).apiKey = some (getApiSecretKey store))
    ∧ (getApiSecretKey store = "" → (sendRequestHeaders store now).apiKey = none)
    ∧ (sendRequestHeaders none now).apiKey = none := by
  by_cases h : getApiSecretKey store = ""
  · have h' : store.getD "" = "" := h
    refine ⟨?_, fun hc => absurd h hc, fun _ => ?_, ?_⟩ <;>
      simp [sendRequestHeaders, applyRequestInterceptor, initialHeaders,
        getApiSecretKey, h']
  · have h' : ¬ store.getD "" = "" := h
    refine ⟨?_, fun _ => ?_, fun hc => absurd hc h, ?_⟩ <;>
      simp [sendRequestHeaders, applyRequestInterceptor, initialHeaders,
        getApiSecretKey, h']

/-- Claim C8 (witness): with a concrete non-empty stored key, the request
carries that key. -/
theorem apiClient_headers_spec_witness :
    getApiSecretKey (some "sekret") ≠ ""
    ∧ (sendRequestHeaders (some "sekret") 1700000000000).apiKey
        = some (getApiSecretKey (some "sekret")) :=
  ⟨by decide, (apiClient_headers_spec (some "sekret") 1700000000000).2.1 (by decide)⟩

/-- Helper for the pagination partition: chopping a list into consecutive
`n`-sized chunks (page `i` being `(l.drop (i * n)).take n`) and concatenating
the `⌈length / n⌉` chunks gives back the list.  Stated with an explicit fuel
bound `k` on the length to allow induction. -/
lemma pages_flatten_aux {α : Type} (n : Nat) (hn : 0 < n) :
    ∀ (k : Nat) (l : List α), l.length ≤ k →
      ((List.range ((l.length + n - 1) / n)).map
        (fun i => (l.drop (i * n)).take n)).flatten = l := by
  intro k
  induction k with
  | zero =>
    intro l hl
    have hnil : l = [] := List.length_eq_zero.mp (Nat.le_zero.mp hl)
    subst hnil
    simp [Nat.div_eq_of_lt (show n - 1 < n by omega)]
  | succ k ih =>
    intro l hl
    by_cases h0 : l.length = 0
    · have hnil : l = [] := List.length_eq_zero.mp h0
      subst hnil
      simp [Nat.div_eq_of_lt (show n - 1 < n by omega)]
    · have h1 : 1 ≤ l.length := by omega
      have hT : (l.length + n - 1) / n = ((l.drop n).length + n - 1) / n + 1 := by
        rw [List.length_drop]
        rcases Nat.le_total l.length n with hle | hge
        · have e1 : l.length - n = 0 := by omega
          have e2 : (0 + n - 1) / n = 0 := Nat.div_eq_of_lt (by omega)
          have e3 : (l.length + n - 1) / n = 1 := by
            apply Nat.div_eq_of_lt_le
            · omega
            · omega
          rw [e1]
          omega
        · have e1 : l.length + n - 1 = (l.length - n + n - 1) + n := by omega
          rw [e1, Nat.add_div_right _ hn]
      rw [hT, List.range_succ_eq_map, List.map_cons, List.map_map,
        List.flatten_cons, Nat.zero_mul, List.drop_zero]
      have hmap :
          List.map ((fun i => (l.drop (i * n)).take n) ∘ Nat.succ)
              (List.range (((l.drop n).length + n - 1) / n))
            = List.map (fun i => ((l.drop n).drop (i * n)).take n)
              (List.range (((l.drop n).length + n - 1) / n)) := by
        refine List.map_congr_left ?_
        intro i _
        simp only [Function.comp_apply]
        rw [List.drop_drop, Nat.succ_mul, Nat.add_comm]
      rw [hmap, ih (l.drop n) (by rw [List.length_drop]; omega),
        List.take_append_drop]

/-- Claim C10: for a positive page size, the pages produced by the pagination
form a partition of the filtered list: concatenating pages `1` through
`totalPages` in order yields exactly the filtered list; every page before the
last has exactly `itemsPerPage` items; and the `i`-th entry of page `p` is
the entry of the filtered list at absolute position `(p-1)*itemsPerPage + i`,
so the pages draw from pairwise disjoint index ranges and no position of the
filtered list appears on two pages. -/
theorem paginatedData_partition (l : List AvailabilityItem) (n : Nat)
    (hn : 0 < n) :
    ((List.range (totalPages l n)).map
        (fun i => paginatedData l n (i + 1))).flatten = l
    ∧ (∀ p, 1 ≤ p → p < totalPages l n → (paginatedData l n p).length = n)
    ∧ (∀ p i, i < (paginatedData l n p).length →
        (paginatedData l n p)[i]? = l[(p - 1) * n + i]?) := by
  refine ⟨?_, ?_, ?_⟩
  · have h := pages_flatten_aux n hn l.length l (le_refl _)
    simpa [paginatedData, totalPages, Nat.add_sub_cancel] using h
  · intro p hp hlt
    have h1 : p + 1 ≤ (l.length + n - 1) / n := hlt
    have h2 : (p + 1) * n ≤ l.length + n - 1 := (Nat.le_div_iff_mul_le hn).mp h1
    have h3 : p * n + n ≤ l.length + n - 1 := by
      rw [Nat.succ_mul] at h2
      omega
    have hmul : p * n < l.length := by omega
    have hsub : (p - 1) * n = p * n - n := by
      rw [Nat.sub_mul, Nat.one_mul]
    have hnp : n ≤ p * n := by
      calc n = 1 * n := (Nat.one_mul n).symm
        _ ≤ p * n := Nat.mul_le_mul_right n hp
    rw [paginatedData, List.length_take, List.length_drop, hsub]
    omega
  · intro p i hi
    rw [paginatedData] at hi ⊢
    rw [List.length_take, List.length_drop] at hi
    have hin : i < n := lt_of_lt_of_le hi (min_le_left _ _)
    rw [List.getElem?_take, if_pos hin, List.getElem?_drop]

/-- Concrete availability item used by the pagination witness. -/
def demoItem (k : String) : AvailabilityItem :=
  ⟨k, "64g", k, "srv", "ssd", none, []⟩

/-- Concrete three-item filtered list used by the pagination witness. -/
def demoItems : List AvailabilityItem :=
  [demoItem "a", demoItem "b", demoItem "c"]

/-- Claim C10 (witness): with page size 2 and a three-item list, the two
pages concatenate back to the list. -/
theorem paginatedData_partition_witness :
    0 < 2 ∧
      ((List.range (totalPages demoItems 2)).map
        (fun i => paginatedData demoItems 2 (i + 1))).flatten = demoItems :=
  ⟨by decide, (paginatedData_partition demoItems 2 (by decide)).1⟩

end OVH
